import Mathlib

/-!
Verification of the coordinate-inference, style-matching, label-formatting
and configuration-state behaviour of earthkit-plots, against its written
specification and release documentation.  The Python implementation of the
resolvers is not shipped in this snapshot (only the project documentation
is), so every definition below is modelled from the specification text and
the release notes that describe the behaviour, and is marked as such.
-/

/-- Modelled from the spec: an x/y/z assignment produced by the coordinate
resolver.  Scalars are abstracted as integers; `z` is absent for purely
one-dimensional (line) data. -/
structure XYZ where
  x : List Int
  y : List Int
  z : Option (List Int)
deriving DecidableEq, Repr

/-- Modelled from the spec: the slice of an xarray Dataset/DataArray the
resolver inspects.  `dims` lists the named dimensions in declared order,
each with the value array xarray would report for it (its coordinate
values, or its default integer index); `auxCoords` are non-dimension
coordinates; `dataVars` are the data variables with their (flattened)
values. -/
structure XData where
  dims : List (String × List Int)
  auxCoords : List (String × List Int)
  dataVars : List (String × List Int)
deriving DecidableEq, Repr

/-- Names of the dimensions of the data, in declared order. -/
def dimNames (d : XData) : List String :=
  d.dims.map (fun p => p.1)

/-- Number of dimensions of the data. -/
def ndim (d : XData) : Nat :=
  d.dims.length

/-- Whether a name denotes a dimension of the data. -/
def isDim (d : XData) (name : String) : Bool :=
  (dimNames d).contains name

/-- First value array recorded under a name in an association list. -/
def lookupVals (name : String) (l : List (String × List Int)) : Option (List Int) :=
  (l.find? (fun p => p.1 == name)).map (fun p => p.2)

/-- Modelled from the spec: `data.values`, the values of the single data
variable; undefined (an ambiguity) for multi-variable datasets. -/
def dataValues (d : XData) : Option (List Int) :=
  match d.dataVars with
  | [v] => some v.2
  | _ => none

/-- Integer index positions `0, 1, ..., n-1` used as a positional fallback
axis. -/
def indices (n : Nat) : List Int :=
  (List.range n).map Int.ofNat

/-- Modelled from the spec: dimension names `find_x` recognises as common
spatial x-dimensions (e.g. longitude). -/
def X_NAMES : List String := ["x", "longitude", "lon", "projection_x_coordinate"]

/-- Modelled from the spec: dimension names `find_y` recognises as common
spatial y-dimensions (e.g. latitude). -/
def Y_NAMES : List String := ["y", "latitude", "lat", "projection_y_coordinate"]

/-- Modelled from the spec: `find_x()`, the first dimension whose name is a
recognised spatial x-dimension name, with its values. -/
def find_x (d : XData) : Option (String × List Int) :=
  d.dims.find? (fun p => X_NAMES.contains p.1)

/-- Modelled from the spec: `find_y()`, the first dimension whose name is a
recognised spatial y-dimension name, with its values. -/
def find_y (d : XData) : Option (String × List Int) :=
  d.dims.find? (fun p => Y_NAMES.contains p.1)

/-- Modelled from the spec: `_get_coordinate_or_variable_values`, which
extracts the value array attached to a name, looking first among dimension
coordinates, then auxiliary coordinates, then data variables. -/
def _get_coordinate_or_variable_values (d : XData) (name : String) : Option (List Int) :=
  match lookupVals name d.dims with
  | some v => some v
  | none =>
    match lookupVals name d.auxCoords with
    | some v => some v
    | none => lookupVals name d.dataVars

/-- Error raised when implicit inference on 3+ dimensional data cannot
identify x and y. -/
def AMBIGUOUS_ND_ERROR : String :=
  "ValueError: could not identify x and y dimensions; explicit variable selection required"

/-- Error raised when the data variable itself is ambiguous. -/
def AMBIGUOUS_VALUES_ERROR : String :=
  "ValueError: could not infer the missing coordinate; ambiguous names or multi-variable dataset"

/-- Error raised when a requested name is not present in the data. -/
def MISSING_NAME_ERROR : String :=
  "KeyError: requested coordinate or variable not found in data"

/-- Modelled from the spec: `_implicit_xyz()`, called when an xarray object
is passed with no indication of x, y and z.  One-dimensional data maps its
values to y with the dimension values (or integer indices when
dimensionless) as x; two-dimensional data uses `find_x`/`find_y` with a
positional fallback and the variable values as z; 3+ dimensional data
requires `find_x` and `find_y` to succeed and otherwise raises an error. -/
def _implicit_xyz (d : XData) : Except String XYZ :=
  match d.dims with
  | [] =>
    match dataValues d with
    | some vs => Except.ok ⟨indices vs.length, vs, none⟩
    | none => Except.error AMBIGUOUS_VALUES_ERROR
  | [dim] =>
    match dataValues d with
    | some vs => Except.ok ⟨dim.2, vs, none⟩
    | none => Except.error AMBIGUOUS_VALUES_ERROR
  | [d1, d2] =>
    match dataValues d with
    | some vs =>
      match find_x d, find_y d with
      | some px, some py => Except.ok ⟨px.2, py.2, some vs⟩
      | _, _ => Except.ok ⟨d1.2, d2.2, some vs⟩
    | none => Except.error AMBIGUOUS_VALUES_ERROR
  | _ =>
    match find_x d, find_y d with
    | some px, some py =>
      match dataValues d with
      | some vs => Except.ok ⟨px.2, py.2, some vs⟩
      | none => Except.error AMBIGUOUS_VALUES_ERROR
    | _, _ => Except.error AMBIGUOUS_ND_ERROR

/-- Dimensions of the data other than the named ones, in declared order. -/
def remainingDims (d : XData) (used : List String) : List (String × List Int) :=
  d.dims.filter (fun p => !(used.contains p.1))

/-- Modelled from the spec: when exactly two of x, y, z are supplied, work
out the value array for the missing one.  If both supplied names are
recognised dimensions the missing one is assumed to be the variable
(`data.values`); if one is a variable and one a dimension, the missing one
is taken from the single remaining dimension; otherwise (ambiguous names,
multi-variable datasets) inference fails with a ValueError. -/
def resolveMissing (d : XData) (a b : String) : Except String (List Int) :=
  match isDim d a, isDim d b with
  | true, true =>
    match dataValues d with
    | some vs => Except.ok vs
    | none => Except.error AMBIGUOUS_VALUES_ERROR
  | true, false =>
    match remainingDims d [a] with
    | [p] => Except.ok p.2
    | _ => Except.error AMBIGUOUS_VALUES_ERROR
  | false, true =>
    match remainingDims d [b] with
    | [p] => Except.ok p.2
    | _ => Except.error AMBIGUOUS_VALUES_ERROR
  | false, false => Except.error AMBIGUOUS_VALUES_ERROR

/-- Modelled from the spec: `_explicit_xyz_nd()` is a placeholder for 3+
dimensional data with explicit x/y/z and is currently not implemented;
every call fails. -/
def _explicit_xyz_nd (_d : XData) (_x _y _z : Option String) : Except String XYZ :=
  Except.error "NotImplementedError: explicit x/y/z handling is not implemented for 3+ dimensional data"

/-- Modelled from the spec: shared explicit-handling logic for 1- and
2-dimensional data.  All three supplied: each is extracted directly with
`_get_coordinate_or_variable_values` and no inference is performed.  Two
supplied: the missing one is inferred by `resolveMissing`.  One supplied:
a dimension name puts `data.values` on the other axis, a variable or
coordinate name infers the other axis from the remaining dimensions,
falling back to integer indices when none remain. -/
def explicitLow (d : XData) (x y z : Option String) : Except String XYZ :=
  match x, y, z with
  | some xn, some yn, some zn =>
    match _get_coordinate_or_variable_values d xn,
          _get_coordinate_or_variable_values d yn,
          _get_coordinate_or_variable_values d zn with
    | some xv, some yv, some zv => Except.ok ⟨xv, yv, some zv⟩
    | _, _, _ => Except.error MISSING_NAME_ERROR
  | some xn, some yn, none =>
    match _get_coordinate_or_variable_values d xn,
          _get_coordinate_or_variable_values d yn with
    | some xv, some yv =>
      match resolveMissing d xn yn with
      | Except.ok zv => Except.ok ⟨xv, yv, some zv⟩
      | Except.error e => Except.error e
    | _, _ => Except.error MISSING_NAME_ERROR
  | some xn, none, some zn =>
    match _get_coordinate_or_variable_values d xn,
          _get_coordinate_or_variable_values d zn with
    | some xv, some zv =>
      match resolveMissing d xn zn with
      | Except.ok yv => Except.ok ⟨xv, yv, some zv⟩
      | Except.error e => Except.error e
    | _, _ => Except.error MISSING_NAME_ERROR
  | none, some yn, some zn =>
    match _get_coordinate_or_variable_values d yn,
          _get_coordinate_or_variable_values d zn with
    | some yv, some zv =>
      match resolveMissing d yn zn with
      | Except.ok xv => Except.ok ⟨xv, yv, some zv⟩
      | Except.error e => Except.error e
    | _, _ => Except.error MISSING_NAME_ERROR
  | some xn, none, none =>
    match _get_coordinate_or_variable_values d xn with
    | none => Except.error MISSING_NAME_ERROR
    | some xv =>
      if isDim d xn then
        match dataValues d with
        | some vs => Except.ok ⟨xv, vs, none⟩
        | none => Except.error AMBIGUOUS_VALUES_ERROR
      else
        match remainingDims d [xn] with
        | [] => Except.ok ⟨xv, indices xv.length, none⟩
        | [p] => Except.ok ⟨xv, p.2, none⟩
        | _ => Except.error AMBIGUOUS_VALUES_ERROR
  | none, some yn, none =>
    match _get_coordinate_or_variable_values d yn with
    | none => Except.error MISSING_NAME_ERROR
    | some yv =>
      if isDim d yn then
        match dataValues d with
        | some vs => Except.ok ⟨yv, vs, none⟩
        | none => Except.error AMBIGUOUS_VALUES_ERROR
      else
        match remainingDims d [yn] with
        | [] => Except.ok ⟨indices yv.length, yv, none⟩
        | [p] => Except.ok ⟨p.2, yv, none⟩
        | _ => Except.error AMBIGUOUS_VALUES_ERROR
  | none, none, some zn =>
    match _get_coordinate_or_variable_values d zn with
    | none => Except.error MISSING_NAME_ERROR
    | some zv =>
      match find_x d, find_y d with
      | some px, some py => Except.ok ⟨px.2, py.2, some zv⟩
      | _, _ =>
        match d.dims with
        | p :: q :: _ => Except.ok ⟨p.2, q.2, some zv⟩
        | [p] => Except.ok ⟨p.2, indices zv.length, some zv⟩
        | [] => Except.ok ⟨indices zv.length, indices zv.length, some zv⟩
  | none, none, none => _implicit_xyz d

/-- Modelled from the spec: `_explicit_xyz_1d()`, explicit handling for
1-dimensional data. -/
def _explicit_xyz_1d (d : XData) (x y z : Option String) : Except String XYZ :=
  explicitLow d x y z

/-- Modelled from the spec: `_explicit_xyz_2d()`, explicit handling for
2-dimensional data. -/
def _explicit_xyz_2d (d : XData) (x y z : Option String) : Except String XYZ :=
  explicitLow d x y z

/-- Modelled from the spec: `_explicit_xyz()`, called when an xarray object
is passed with one or more of x, y and z; dispatches to
`_explicit_xyz_1d`, `_explicit_xyz_2d` or `_explicit_xyz_nd` based on
dimensionality. -/
def _explicit_xyz (d : XData) (x y z : Option String) : Except String XYZ :=
  if ndim d ≥ 3 then _explicit_xyz_nd d x y z
  else if ndim d = 2 then _explicit_xyz_2d d x y z
  else _explicit_xyz_1d d x y z

/-- Modelled from the spec: the top-level coordinate resolver, choosing the
implicit path when no hint is given and the explicit path otherwise. -/
def resolve_xyz (d : XData) (x y z : Option String) : Except String XYZ :=
  match x, y, z with
  | none, none, none => _implicit_xyz d
  | _, _, _ => _explicit_xyz d x y z

/-- Modelled from the spec: a style record, i.e. a named set of
rendering keyword arguments. -/
structure Style where
  name : String
  kwargs : List (String × String)
deriving DecidableEq, Repr

/-- Metadata of a dataset: a mapping from metadata keys to values. -/
abbrev Metadata := List (String × String)

/-- Modelled from the spec: a single criterion of a style rule, a
metadata key that must carry a given value. -/
structure Criterion where
  key : String
  value : String
deriving DecidableEq, Repr

/-- Whether a criterion matches the input metadata. -/
def criterionMatches (m : Metadata) (c : Criterion) : Bool :=
  match (m.find? (fun p => p.1 == c.key)).map (fun p => p.2) with
  | some v => v == c.value
  | none => false

/-- Modelled from the spec: one entry of the criteria-to-style mapping;
a style may require matching multiple criteria. -/
structure StyleRule where
  criteria : List Criterion
  style : Style
deriving DecidableEq, Repr

/-- Modelled from the spec: the unstyled default style returned when no
catalog entry matches. -/
def DEFAULT_STYLE : Style := ⟨"default", []⟩

/-- Whether all criteria of a rule match the input metadata. -/
def ruleMatches (m : Metadata) (r : StyleRule) : Bool :=
  r.criteria.all (criterionMatches m)

/-- Modelled from the spec: style matching scans the declared
criteria-to-style mapping in declared order and returns the style of the
first rule all of whose criteria match the metadata, falling back to the
unstyled default. -/
def suggest_style (catalog : List StyleRule) (m : Metadata) : Style :=
  match catalog.find? (ruleMatches m) with
  | some r => r.style
  | none => DEFAULT_STYLE

/-- Modelled from the spec: the pieces of a unit needed by the label
formatter, in shortened-symbol and full-name forms, as a single
numerator/denominator pair (e.g. m per s, metre per second). -/
structure UnitsInfo where
  shortNum : String
  shortDen : String
  fullNum : String
  fullDen : String
deriving DecidableEq, Repr

/-- Modelled from the spec: the three unit presentation forms selected by
the format codes E (exponential), F (inline fractional) and L (stacked
fractional). -/
inductive UnitsForm where
  | exponential
  | inlineFraction
  | stackedFraction
deriving DecidableEq, Repr

/-- Modelled from the spec: parse the notation-selection mini-syntax of a
units placeholder.  The presence of the tilde selects the shortened unit
symbol; the letter E, F or L selects the presentation form, defaulting to
exponential when no letter is given. -/
def parseUnitsFormat (f : String) : Option (UnitsForm × Bool) :=
  let short := f.toList.contains '~'
  match f.toList.filter (fun c => c ≠ '~') with
  | [] => some (UnitsForm.exponential, short)
  | ['E'] => some (UnitsForm.exponential, short)
  | ['F'] => some (UnitsForm.inlineFraction, short)
  | ['L'] => some (UnitsForm.stackedFraction, short)
  | _ => none

/-- Modelled from the spec: render a unit in the selected form, using the
shortened symbol or the full unit name. -/
def formatUnits (u : UnitsInfo) (form : UnitsForm) (short : Bool) : String :=
  let n := if short then u.shortNum else u.fullNum
  let den := if short then u.shortDen else u.fullDen
  match form with
  | UnitsForm.exponential => n ++ " \\cdot " ++ den ++ "^-1"
  | UnitsForm.inlineFraction => n ++ " / " ++ den
  | UnitsForm.stackedFraction => "\\frac\x7b" ++ n ++ "\x7d\x7b" ++ den ++ "\x7d"

/-- A parsed label or title template: literal text interleaved with units
placeholders carrying their raw format string. -/
inductive LabelToken where
  | lit (s : String)
  | unitsField (format : String)
deriving DecidableEq, Repr

/-- Modelled from the spec: substitute one template token, rendering a
units placeholder according to its mini-syntax format string and leaving
an unrecognised format string in place. -/
def renderToken (u : UnitsInfo) (t : LabelToken) : String :=
  match t with
  | LabelToken.lit s => s
  | LabelToken.unitsField f =>
    match parseUnitsFormat f with
    | some fs => formatUnits u fs.1 fs.2
    | none => f

/-- Modelled from the spec: string-template substitution of a label or
title against the dataset units. -/
def format_label (tpl : List LabelToken) (u : UnitsInfo) : String :=
  String.join (tpl.map (renderToken u))

/-- Modelled from the spec: the static configuration tables loaded once
when the package is imported — domain bounds, unit aliases and the style
catalog. -/
structure ConfigTables where
  domainBounds : List (String × (Int × Int × Int × Int))
  unitAliases : List (String × String)
  styleCatalog : List StyleRule
deriving DecidableEq, Repr

/-- Modelled from the spec: the in-memory state of a plotting session:
the configuration tables plus the request-scoped render products. -/
structure SessionState where
  config : ConfigTables
  renders : List String
deriving DecidableEq, Repr

/-- Modelled from the spec: the plotting operations of the public surface;
each produces render output and touches no configuration table. -/
inductive PlotOp where
  | quickplot (dataTag : String)
  | addLayer (dataTag : String)
  | addLegend
deriving DecidableEq, Repr

/-- Modelled from the spec: apply one plotting operation to the session
state. -/
def applyPlotOp (s : SessionState) (op : PlotOp) : SessionState :=
  match op with
  | PlotOp.quickplot t => { s with renders := s.renders ++ [t] }
  | PlotOp.addLayer t => { s with renders := s.renders ++ [t] }
  | PlotOp.addLegend => { s with renders := s.renders ++ ["legend"] }

/-- Modelled from the spec: run a sequence of plotting operations. -/
def runPlotOps (s : SessionState) (ops : List PlotOp) : SessionState :=
  ops.foldl applyPlotOp s

/-- Claim C2: for every xarray input of dimensionality 3 or higher passed
without any of x, y, z, `_implicit_xyz` attempts to identify x and y via
`find_x()` and `find_y()`; if both are found it returns their coordinate
values as x and y with the full data array as z, and otherwise it raises a
descriptive error requiring explicit variable selection. -/
theorem C2_implicit_nd (d : XData) (vs : List Int) (h3 : 3 ≤ ndim d)
    (hv : dataValues d = some vs) :
    (∀ px py, find_x d = some px → find_y d = some py →
      _implicit_xyz d = Except.ok ⟨px.2, py.2, some vs⟩) ∧
    ((find_x d = none ∨ find_y d = none) →
      _implicit_xyz d = Except.error AMBIGUOUS_ND_ERROR) := by
  rcases d with ⟨dims, aux, vars⟩
  match dims with
  | [] => simp [ndim] at h3
  | [a] => simp [ndim] at h3
  | [a, b] => simp [ndim] at h3
  | a :: b :: c :: rest =>
    constructor
    · intro px py hx hy
      simp only [_implicit_xyz, hx, hy, hv]
    · rintro (hx | hy)
      · simp only [_implicit_xyz, hx]
      · simp only [_implicit_xyz, hy]
        cases find_x ⟨a :: b :: c :: rest, aux, vars⟩ <;> rfl

/-- Witness for C2 at concrete 3-dimensional data with recognisable
latitude and longitude dimensions. -/
theorem C2_implicit_nd_witness :
    _implicit_xyz ⟨[("time", [0, 1]), ("lat", [10, 20]), ("lon", [30, 40])], [],
        [("t2m", [1, 2, 3, 4, 5, 6, 7, 8])]⟩
      = Except.ok ⟨[30, 40], [10, 20], some [1, 2, 3, 4, 5, 6, 7, 8]⟩ :=
  (C2_implicit_nd ⟨[("time", [0, 1]), ("lat", [10, 20]), ("lon", [30, 40])], [],
        [("t2m", [1, 2, 3, 4, 5, 6, 7, 8])]⟩
      [1, 2, 3, 4, 5, 6, 7, 8] (by decide) (by rfl)).1
    ("lon", [30, 40]) ("lat", [10, 20]) (by rfl) (by rfl)

/-- Claim C3: for every 1-dimensional xarray input passed without x, y, z
hints, `_implicit_xyz` assigns the variable values to y, and assigns to x
the values of the input's dimension when one exists, falling back to the
integer index positions when the input is dimensionless. -/
theorem C3_implicit_1d (d : XData) (vs : List Int) (hv : dataValues d = some vs) :
    (d.dims = [] → _implicit_xyz d = Except.ok ⟨indices vs.length, vs, none⟩) ∧
    (∀ p, d.dims = [p] → _implicit_xyz d = Except.ok ⟨p.2, vs, none⟩) := by
  rcases d with ⟨dims, aux, vars⟩
  constructor
  · intro h0
    subst h0
    simp only [_implicit_xyz, hv]
  · intro p h1
    subst h1
    simp only [_implicit_xyz, hv]

/-- Witness for C3 at concrete data with a single time dimension. -/
theorem C3_implicit_1d_witness :
    _implicit_xyz ⟨[("time", [10, 20, 30])], [], [("t2m", [5, 6, 7])]⟩
      = Except.ok ⟨[10, 20, 30], [5, 6, 7], none⟩ :=
  (C3_implicit_1d ⟨[("time", [10, 20, 30])], [], [("t2m", [5, 6, 7])]⟩
      [5, 6, 7] (by rfl)).2 ("time", [10, 20, 30]) (by rfl)

/-- Claim C4: for every 2-dimensional xarray input passed without x, y, z
hints, `_implicit_xyz` first calls `find_x()` and `find_y()` to identify
recognised spatial dimensions such as longitude and latitude; if none are
found it assigns the first dimension as x and the second dimension as y,
and in both cases the variable values are used as z. -/
theorem C4_implicit_2d (d : XData) (p q : String × List Int) (vs : List Int)
    (hd : d.dims = [p, q]) (hv : dataValues d = some vs) :
    (∀ px py, find_x d = some px → find_y d = some py →
      _implicit_xyz d = Except.ok ⟨px.2, py.2, some vs⟩) ∧
    (find_x d = none → find_y d = none →
      _implicit_xyz d = Except.ok ⟨p.2, q.2, some vs⟩) := by
  rcases d with ⟨dims, aux, vars⟩
  simp only at hd
  subst hd
  constructor
  · intro px py hx hy
    simp only [_implicit_xyz, hx, hy, hv]
  · intro hx hy
    simp only [_implicit_xyz, hx, hy, hv]

/-- Witness for C4 at concrete 2-dimensional latitude/longitude data. -/
theorem C4_implicit_2d_witness :
    _implicit_xyz ⟨[("lat", [1, 2]), ("lon", [3, 4])], [], [("t2m", [9, 8, 7, 6])]⟩
      = Except.ok ⟨[3, 4], [1, 2], some [9, 8, 7, 6]⟩ :=
  (C4_implicit_2d ⟨[("lat", [1, 2]), ("lon", [3, 4])], [], [("t2m", [9, 8, 7, 6])]⟩
      ("lat", [1, 2]) ("lon", [3, 4]) [9, 8, 7, 6] (by rfl) (by rfl)).1
    ("lon", [3, 4]) ("lat", [1, 2]) (by rfl) (by rfl)

/-- Helper: scanning the catalog finds the first rule whose criteria all
match the metadata. -/
theorem find_rule_first (m : Metadata) (r : StyleRule) (post : List StyleRule) :
    ∀ pre : List StyleRule, (∀ r' ∈ pre, ruleMatches m r' = false) →
      ruleMatches m r = true →
      (pre ++ r :: post).find? (ruleMatches m) = some r := by
  intro pre
  induction pre with
  | nil =>
    intro _ hr
    simpa using List.find?_cons_of_pos post hr
  | cons a t ih =>
    intro hpre hr
    have ha : ruleMatches m a = false := hpre a (by simp)
    have ht : ∀ r' ∈ t, ruleMatches m r' = false := fun r' h => hpre r' (by simp [h])
    rw [List.cons_append, List.find?_cons_of_neg _ (by simp [ha])]
    exact ih ht hr

/-- Claim C1: for every input metadata mapping, style matching scans the
declared criteria-to-style mapping in declared order and returns the first
style whose criteria all match the metadata (a style may require multiple
criteria, all of which must match); if no entry matches, it returns the
unstyled default style. -/
theorem C1_style_matching (pre post : List StyleRule) (r : StyleRule) (m : Metadata)
    (hpre : ∀ r' ∈ pre, ruleMatches m r' = false)
    (hr : ruleMatches m r = true) :
    suggest_style (pre ++ r :: post) m = r.style ∧
    (∀ catalog : List StyleRule, (∀ r' ∈ catalog, ruleMatches m r' = false) →
      suggest_style catalog m = DEFAULT_STYLE) := by
  constructor
  · simp only [suggest_style, find_rule_first m r post pre hpre hr]
  · intro catalog hnone
    have hfind : catalog.find? (ruleMatches m) = none := by
      apply List.find?_eq_none.mpr
      intro x hx
      simp [hnone x hx]
    simp only [suggest_style, hfind]

/-- Witness for C1: a two-criteria vector style is skipped for scalar
metadata until the matching rule is reached, and an unmatched catalog
yields the default style. -/
theorem C1_style_matching_witness :
    suggest_style
      [⟨[⟨"variable", "u"⟩, ⟨"variable", "v"⟩], ⟨"wind", [("type", "quiver")]⟩⟩,
       ⟨[⟨"variable", "t2m"⟩], ⟨"temperature", [("cmap", "turbo")]⟩⟩]
      [("variable", "t2m")]
      = ⟨"temperature", [("cmap", "turbo")]⟩ ∧
    suggest_style
      [⟨[⟨"variable", "u"⟩, ⟨"variable", "v"⟩], ⟨"wind", [("type", "quiver")]⟩⟩]
      [("variable", "msl")]
      = DEFAULT_STYLE := by
  refine ⟨?_, ?_⟩
  · exact (C1_style_matching
      [⟨[⟨"variable", "u"⟩, ⟨"variable", "v"⟩], ⟨"wind", [("type", "quiver")]⟩⟩]
      [] ⟨[⟨"variable", "t2m"⟩], ⟨"temperature", [("cmap", "turbo")]⟩⟩
      [("variable", "t2m")] (by decide) (by decide)).1
  · exact (C1_style_matching [] []
      ⟨[], DEFAULT_STYLE⟩ [("variable", "t2m")] (by decide) (by decide)).2
      [⟨[⟨"variable", "u"⟩, ⟨"variable", "v"⟩], ⟨"wind", [("type", "quiver")]⟩⟩]
      (by decide)

/-- Counterexample to claim C5 as stated: on a 3-dimensional input whose
x, y and z names all resolve via `_get_coordinate_or_variable_values`, the
explicit resolver does not extract them but fails through the
unimplemented 3+ dimensional placeholder. -/
theorem C5_counterexample :
    _get_coordinate_or_variable_values
        ⟨[("time", [0, 1]), ("x", [0, 1]), ("y", [2, 3])], [],
         [("t2m", [1, 2, 3, 4, 5, 6, 7, 8])]⟩ "x" = some [0, 1] ∧
    _get_coordinate_or_variable_values
        ⟨[("time", [0, 1]), ("x", [0, 1]), ("y", [2, 3])], [],
         [("t2m", [1, 2, 3, 4, 5, 6, 7, 8])]⟩ "y" = some [2, 3] ∧
    _get_coordinate_or_variable_values
        ⟨[("time", [0, 1]), ("x", [0, 1]), ("y", [2, 3])], [],
         [("t2m", [1, 2, 3, 4, 5, 6, 7, 8])]⟩ "t2m" = some [1, 2, 3, 4, 5, 6, 7, 8] ∧
    _explicit_xyz
        ⟨[("time", [0, 1]), ("x", [0, 1]), ("y", [2, 3])], [],
         [("t2m", [1, 2, 3, 4, 5, 6, 7, 8])]⟩ (some "x") (some "y") (some "t2m")
      = Except.error "NotImplementedError: explicit x/y/z handling is not implemented for 3+ dimensional data" :=
  ⟨rfl, rfl, rfl, rfl⟩

/-- Claim C5 (amended to data of dimensionality at most 2 whose supplied
names are present): when all three of x, y and z are supplied explicitly,
`_explicit_xyz` extracts each of them directly via
`_get_coordinate_or_variable_values`, performs no inference, and raises no
error. -/
theorem C5_explicit_all_three (d : XData) (xn yn zn : String) (xv yv zv : List Int)
    (hnd : ndim d ≤ 2)
    (hx : _get_coordinate_or_variable_values d xn = some xv)
    (hy : _get_coordinate_or_variable_values d yn = some yv)
    (hz : _get_coordinate_or_variable_values d zn = some zv) :
    _explicit_xyz d (some xn) (some yn) (some zn) = Except.ok ⟨xv, yv, some zv⟩ := by
  have h3 : ¬ (ndim d ≥ 3) := by omega
  by_cases h2 : ndim d = 2
  · simp only [_explicit_xyz, if_neg h3, if_pos h2, _explicit_xyz_2d, explicitLow, hx, hy, hz]
  · simp only [_explicit_xyz, if_neg h3, if_neg h2, _explicit_xyz_1d, explicitLow, hx, hy, hz]

/-- Witness for C5 at concrete 2-dimensional data with all of x, y and z
supplied by name. -/
theorem C5_explicit_all_three_witness :
    _explicit_xyz ⟨[("lat", [1, 2]), ("lon", [3, 4])], [], [("t2m", [9, 8, 7, 6])]⟩
      (some "lon") (some "lat") (some "t2m")
      = Except.ok ⟨[3, 4], [1, 2], some [9, 8, 7, 6]⟩ :=
  C5_explicit_all_three ⟨[("lat", [1, 2]), ("lon", [3, 4])], [], [("t2m", [9, 8, 7, 6])]⟩
    "lon" "lat" "t2m" [3, 4] [1, 2] [9, 8, 7, 6] (by decide) rfl rfl rfl

/-- Counterexample to claim C6 as stated: on a 3-dimensional input with
exactly two of x, y, z supplied, both recognised as dimensions and with
the variable values available — so the claimed inference is possible —
the resolver neither assigns the variable values to the missing z nor
confines failure to impossible inferences: it fails through the
unimplemented 3+ dimensional placeholder. -/
theorem C6_counterexample :
    isDim ⟨[("time", [0, 1]), ("x", [0, 1]), ("y", [2, 3])], [],
           [("t2m", [1, 2, 3, 4, 5, 6, 7, 8])]⟩ "x" = true ∧
    isDim ⟨[("time", [0, 1]), ("x", [0, 1]), ("y", [2, 3])], [],
           [("t2m", [1, 2, 3, 4, 5, 6, 7, 8])]⟩ "y" = true ∧
    dataValues ⟨[("time", [0, 1]), ("x", [0, 1]), ("y", [2, 3])], [],
           [("t2m", [1, 2, 3, 4, 5, 6, 7, 8])]⟩ = some [1, 2, 3, 4, 5, 6, 7, 8] ∧
    _explicit_xyz ⟨[("time", [0, 1]), ("x", [0, 1]), ("y", [2, 3])], [],
           [("t2m", [1, 2, 3, 4, 5, 6, 7, 8])]⟩ (some "x") (some "y") none
      = Except.error "NotImplementedError: explicit x/y/z handling is not implemented for 3+ dimensional data" :=
  ⟨rfl, rfl, rfl, rfl⟩

/-- Claim C6 (amended to data of dimensionality at most 2 whose supplied
names are present): where exactly two of x, y, z are supplied: if both
supplied values are recognised as dimensions, the missing one is assigned
the variable values; if one is a variable and one a dimension, the
missing one is inferred from the remaining dimensions; and a ValueError
is raised exactly when this inference is not possible (ambiguous names or
multi-variable datasets). -/
theorem C6_explicit_two (d : XData) (a b : String) (va vb vs : List Int)
    (p : String × List Int) (hnd : ndim d ≤ 2)
    (ha : _get_coordinate_or_variable_values d a = some va)
    (hb : _get_coordinate_or_variable_values d b = some vb) :
    (isDim d a = true → isDim d b = true → dataValues d = some vs →
        _explicit_xyz d (some a) (some b) none = Except.ok ⟨va, vb, some vs⟩ ∧
        _explicit_xyz d (some a) none (some b) = Except.ok ⟨va, vs, some vb⟩ ∧
        _explicit_xyz d none (some a) (some b) = Except.ok ⟨vs, va, some vb⟩) ∧
    (isDim d a = true → isDim d b = false → remainingDims d [a] = [p] →
        _explicit_xyz d (some a) (some b) none = Except.ok ⟨va, vb, some p.2⟩ ∧
        _explicit_xyz d (some a) none (some b) = Except.ok ⟨va, p.2, some vb⟩) ∧
    ((∃ e, _explicit_xyz d (some a) (some b) none = Except.error e) ↔
      ¬ ((isDim d a = true ∧ isDim d b = true ∧ (dataValues d).isSome = true) ∨
         (isDim d a = true ∧ isDim d b = false ∧ (remainingDims d [a]).length = 1) ∨
         (isDim d a = false ∧ isDim d b = true ∧ (remainingDims d [b]).length = 1))) := by
  have h3 : ¬ (ndim d ≥ 3) := by omega
  have hdisp : ∀ x y z, _explicit_xyz d x y z = explicitLow d x y z := by
    intro x y z
    by_cases h2 : ndim d = 2
    · simp [_explicit_xyz, h3, h2, _explicit_xyz_2d]
    · simp [_explicit_xyz, h3, h2, _explicit_xyz_1d]
  refine ⟨?_, ?_, ?_⟩
  · intro hda hdb hv
    have hr : resolveMissing d a b = Except.ok vs := by
      simp [resolveMissing, hda, hdb, hv]
    refine ⟨?_, ?_, ?_⟩ <;> simp [hdisp, explicitLow, ha, hb, hr]
  · intro hda hdb hrem
    have hr : resolveMissing d a b = Except.ok p.2 := by
      simp [resolveMissing, hda, hdb, hrem]
    refine ⟨?_, ?_⟩ <;> simp [hdisp, explicitLow, ha, hb, hr]
  · constructor
    · rintro ⟨e, he⟩ hcon
      rcases hcon with ⟨h1, h2, hv⟩ | ⟨h1, h2, hlen⟩ | ⟨h1, h2, hlen⟩
      · obtain ⟨vs', hvs⟩ := Option.isSome_iff_exists.mp hv
        have hok : _explicit_xyz d (some a) (some b) none = Except.ok ⟨va, vb, some vs'⟩ := by
          have hr : resolveMissing d a b = Except.ok vs' := by
            simp [resolveMissing, h1, h2, hvs]
          simp [hdisp, explicitLow, ha, hb, hr]
        rw [hok] at he
        exact Except.noConfusion he
      · obtain ⟨q, hq⟩ := List.length_eq_one.mp hlen
        have hr : resolveMissing d a b = Except.ok q.2 := by
          simp [resolveMissing, h1, h2, hq]
        have hok : _explicit_xyz d (some a) (some b) none = Except.ok ⟨va, vb, some q.2⟩ := by
          simp [hdisp, explicitLow, ha, hb, hr]
        rw [hok] at he
        exact Except.noConfusion he
      · obtain ⟨q, hq⟩ := List.length_eq_one.mp hlen
        have hr : resolveMissing d a b = Except.ok q.2 := by
          simp [resolveMissing, h1, h2, hq]
        have hok : _explicit_xyz d (some a) (some b) none = Except.ok ⟨va, vb, some q.2⟩ := by
          simp [hdisp, explicitLow, ha, hb, hr]
        rw [hok] at he
        exact Except.noConfusion he
    · intro hcon
      have herr : resolveMissing d a b = Except.error AMBIGUOUS_VALUES_ERROR := by
        cases hda : isDim d a <;> cases hdb : isDim d b
        · simp [resolveMissing, hda, hdb]
        · match hrm : remainingDims d [b] with
          | [] => simp [resolveMissing, hda, hdb, hrm]
          | [q] =>
            exact absurd (Or.inr (Or.inr ⟨hda, hdb, by simp [hrm]⟩)) hcon
          | q1 :: q2 :: rest => simp [resolveMissing, hda, hdb, hrm]
        · match hrm : remainingDims d [a] with
          | [] => simp [resolveMissing, hda, hdb, hrm]
          | [q] =>
            exact absurd (Or.inr (Or.inl ⟨hda, hdb, by simp [hrm]⟩)) hcon
          | q1 :: q2 :: rest => simp [resolveMissing, hda, hdb, hrm]
        · match hv : dataValues d with
          | some vs' =>
            exact absurd (Or.inl ⟨hda, hdb, by simp [hv]⟩) hcon
          | none => simp [resolveMissing, hda, hdb, hv]
      refine ⟨AMBIGUOUS_VALUES_ERROR, ?_⟩
      simp [hdisp, explicitLow, ha, hb, herr]

/-- Witness for C6: on latitude/longitude gridded temperature data with x
and y supplied as the two dimensions, the missing z is assigned the
variable values. -/
theorem C6_explicit_two_witness :
    _explicit_xyz ⟨[("lat", [1, 2]), ("lon", [3, 4])], [], [("t2m", [9, 8, 7, 6])]⟩
      (some "lon") (some "lat") none
      = Except.ok ⟨[3, 4], [1, 2], some [9, 8, 7, 6]⟩ :=
  ((C6_explicit_two ⟨[("lat", [1, 2]), ("lon", [3, 4])], [], [("t2m", [9, 8, 7, 6])]⟩
      "lon" "lat" [3, 4] [1, 2] [9, 8, 7, 6] ("lat", [1, 2])
      (by decide) rfl rfl).1 (by decide) (by decide) rfl).1

/-- Claim C7: for every label or title template containing the units
placeholder, the formatter substitutes the dataset units rendered
according to the notation-selection mini-syntax: format code E yields
exponential form, F yields inline fractional form, L yields stacked
fractional form, and the presence of the tilde character selects the
shortened unit symbol while its absence yields the full unit name. -/
theorem C7_units_formatting (u : UnitsInfo) (tpl : List LabelToken) :
    format_label tpl u = String.join (tpl.map (renderToken u)) ∧
    renderToken u (LabelToken.unitsField "~E")
      = u.shortNum ++ " \\cdot " ++ u.shortDen ++ "^-1" ∧
    renderToken u (LabelToken.unitsField "~F")
      = u.shortNum ++ " / " ++ u.shortDen ∧
    renderToken u (LabelToken.unitsField "~L")
      = "\\frac\x7b" ++ u.shortNum ++ "\x7d\x7b" ++ u.shortDen ++ "\x7d" ∧
    renderToken u (LabelToken.unitsField "E")
      = u.fullNum ++ " \\cdot " ++ u.fullDen ++ "^-1" ∧
    renderToken u (LabelToken.unitsField "F")
      = u.fullNum ++ " / " ++ u.fullDen ∧
    renderToken u (LabelToken.unitsField "L")
      = "\\frac\x7b" ++ u.fullNum ++ "\x7d\x7b" ++ u.fullDen ++ "\x7d" ∧
    renderToken u (LabelToken.unitsField "")
      = u.fullNum ++ " \\cdot " ++ u.fullDen ++ "^-1" :=
  ⟨rfl, rfl, rfl, rfl, rfl, rfl, rfl, rfl⟩

/-- Claim C8: coordinate-role inference is deterministic — two runs of the
resolver on equal inputs and equal hints produce the same x, y, z
assignment or both raise the same error. -/
theorem C8_deterministic (d d' : XData) (x y z x' y' z' : Option String)
    (hd : d = d') (hx : x = x') (hy : y = y') (hz : z = z') :
    resolve_xyz d x y z = resolve_xyz d' x' y' z' := by
  subst hd
  subst hx
  subst hy
  subst hz
  rfl

/-- Witness for C8 at a concrete input and hint set, run twice. -/
theorem C8_deterministic_witness :
    resolve_xyz ⟨[("lat", [1, 2]), ("lon", [3, 4])], [], [("t2m", [9, 8, 7, 6])]⟩
        (some "lon") none none
      = resolve_xyz ⟨[("lat", [1, 2]), ("lon", [3, 4])], [], [("t2m", [9, 8, 7, 6])]⟩
        (some "lon") none none :=
  C8_deterministic ⟨[("lat", [1, 2]), ("lon", [3, 4])], [], [("t2m", [9, 8, 7, 6])]⟩
    ⟨[("lat", [1, 2]), ("lon", [3, 4])], [], [("t2m", [9, 8, 7, 6])]⟩
    (some "lon") none none (some "lon") none none rfl rfl rfl rfl

/-- Claim C9: the static configuration tables loaded once at import time
are never mutated by any plot call — after any sequence of plotting
operations the configuration tables equal their state at import. -/
theorem C9_config_immutable (s : SessionState) (ops : List PlotOp) :
    (runPlotOps s ops).config = s.config := by
  induction ops generalizing s with
  | nil => rfl
  | cons op rest ih =>
    have hop : (applyPlotOp s op).config = s.config := by
      cases op <;> rfl
    calc (runPlotOps s (op :: rest)).config
        = (runPlotOps (applyPlotOp s op) rest).config := rfl
      _ = (applyPlotOp s op).config := ih (applyPlotOp s op)
      _ = s.config := hop

/-- Claim C10: for every input of dimensionality 3 or higher passed with
explicit x, y or z hints, the explicit-handling path dispatches to
`_explicit_xyz_nd`, an unimplemented placeholder, so the call always
fails rather than producing an x/y/z assignment. -/
theorem C10_explicit_nd_fails (d : XData) (x y z : Option String)
    (hnd : 3 ≤ ndim d)
    (hhint : x.isSome = true ∨ y.isSome = true ∨ z.isSome = true) :
    resolve_xyz d x y z = _explicit_xyz_nd d x y z ∧
    ∀ r, resolve_xyz d x y z ≠ Except.ok r := by
  have hge : ndim d ≥ 3 := hnd
  have hres : resolve_xyz d x y z = _explicit_xyz_nd d x y z := by
    cases x <;> cases y <;> cases z <;>
      simp_all [resolve_xyz, _explicit_xyz, hge]
  refine ⟨hres, ?_⟩
  intro r
  rw [hres]
  simp [_explicit_xyz_nd]

/-- Witness for C10 at concrete 3-dimensional data with an explicit x
hint. -/
theorem C10_explicit_nd_fails_witness :
    resolve_xyz ⟨[("time", [0, 1]), ("x", [0, 1]), ("y", [2, 3])], [],
        [("t2m", [1, 2, 3, 4, 5, 6, 7, 8])]⟩ (some "x") none none
      = _explicit_xyz_nd ⟨[("time", [0, 1]), ("x", [0, 1]), ("y", [2, 3])], [],
        [("t2m", [1, 2, 3, 4, 5, 6, 7, 8])]⟩ (some "x") none none :=
  (C10_explicit_nd_fails ⟨[("time", [0, 1]), ("x", [0, 1]), ("y", [2, 3])], [],
      [("t2m", [1, 2, 3, 4, 5, 6, 7, 8])]⟩ (some "x") none none
    (by decide) (Or.inl rfl)).1
